import Mathlib

/-!
Shallow embedding of the ISS ETL pipeline `mywork/lab4/iss.py`.

The Python functions `extract`, `transform`, `load` and `main` are modelled
as pure Lean functions.  Effects are passed explicitly:

* the network answer of `requests.get` is a `NetResult`;
* the destination CSV file is an `Option (List String)` (`none` when the
  file is absent, otherwise the list of its lines);
* Boolean flags say whether the two file writes performed by the script
  (the raw JSON snapshot in `extract`, the CSV append in `load`) succeed;
* log output is a list of `LogMsg` values, one per logging call;
* a Python exception escaping a function is the `PyResult.exn` constructor,
  carrying the log emitted before the raise.

Numeric JSON values are modelled as exact rationals (`mkRat` keeps every
definition kernel-reducible).  Python float values are a `PyFloat`: a
finite value — the exact rational of its decimal spelling, abstracting the
IEEE-754 rounding of doubles and the overflow/underflow of extreme
exponents — or a signed infinity or NaN, which `float()` accepts from
strings.  CPython rewrites unicode decimal digits and unicode spaces to
ASCII before parsing a numeric string; the coercion models take that ASCII
form as their input.
-/

namespace ISS

/-- Decimal digit characters of a natural number, accumulator style.  The
first argument is fuel; `natCsvChars` supplies enough fuel, keeping the
definition structurally recursive and kernel-reducible. -/
def natCsvGo : Nat → Nat → List Char → List Char
  | 0, _, acc => acc
  | fuel + 1, n, acc =>
    if n < 10 then Nat.digitChar n :: acc
    else natCsvGo fuel (n / 10) (Nat.digitChar (n % 10) :: acc)

/-- Decimal digit characters of a natural number. -/
def natCsvChars (n : Nat) : List Char := natCsvGo (n + 1) n []

/-- The ASCII characters Python treats as whitespace when stripping around
numeric literals: `\t \n \v \f \r`, the separator controls `0x1c`-`0x1f`,
and the space.  (CPython first maps unicode spaces to the ASCII space and
unicode decimal digits to ASCII digits; the models below take that
transformed ASCII form as their input.) -/
def isPySpace (c : Char) : Bool :=
  decide (c.toNat = 32 ∨ (9 ≤ c.toNat ∧ c.toNat ≤ 13) ∨ (28 ≤ c.toNat ∧ c.toNat ≤ 31))

/-- Model of Python `str.strip()`: drop leading and trailing whitespace. -/
def trimChars (l : List Char) : List Char :=
  ((l.dropWhile isPySpace).reverse.dropWhile isPySpace).reverse

/-- Lower-case an ASCII letter, for the case-insensitive `inf`/`nan`
spellings `float()` accepts. -/
def asciiLower (c : Char) : Char :=
  if 'A' ≤ c ∧ c ≤ 'Z' then Char.ofNat (c.toNat + 32) else c

/-- Numeric value of a list of decimal digit characters. -/
def digitsVal (l : List Char) : Nat :=
  l.foldl (fun a c => 10 * a + (c.toNat - 48)) 0

/-- Split an optional leading sign off a character list, returning the sign
as `1` or `-1` together with the rest. -/
def splitSign : List Char → Int × List Char
  | '+' :: t => (1, t)
  | '-' :: t => (-1, t)
  | l => (1, l)

/-- Split a character list at the first dot, if any. -/
def breakDot : List Char → List Char × Option (List Char)
  | [] => ([], none)
  | c :: t =>
    if c = '.' then ([], some t)
    else
      let r := breakDot t
      (c :: r.1, r.2)

/-- Split a character list at the first `e`/`E`, if any (the exponent
marker of a Python float literal). -/
def breakExp : List Char → List Char × Option (List Char)
  | [] => ([], none)
  | c :: t =>
    if c = 'e' ∨ c = 'E' then ([], some t)
    else
      let r := breakExp t
      (c :: r.1, r.2)

/-- Continuation of `digitGroup`: after an initial digit, accept further
digits with single underscores strictly between digits, returning the
digits with the underscores removed. -/
def digitGroupGo : List Char → List Char → Option (List Char)
  | [], acc => some acc.reverse
  | '_' :: rest, acc =>
    match rest with
    | [] => none
    | d :: rest2 => if d.isDigit then digitGroupGo rest2 (d :: acc) else none
  | c :: rest, acc => if c.isDigit then digitGroupGo rest (c :: acc) else none

/-- A Python `digitpart`: a nonempty digit run with optional single
underscores between digits (`1_000`), never leading, trailing or doubled.
Returns the digits with underscores stripped, `none` on any violation. -/
def digitGroup : List Char → Option (List Char)
  | [] => none
  | c :: rest => if c.isDigit then digitGroupGo rest [c] else none

/-- Model of Python `int(s)` on a string: optional surrounding whitespace,
optional sign, then one `digitpart` (underscores between digits allowed).
CPython first rewrites unicode decimal digits and spaces to ASCII; this
model takes that ASCII form as its input. -/
def pyIntOfString (s : String) : Option Int :=
  let t := trimChars s.data
  let sd := splitSign t
  (digitGroup sd.2).map fun ds => sd.1 * Int.ofNat (digitsVal ds)

/-- The value a Python float can carry: a finite value (modelled as the
exact rational of its decimal spelling; the IEEE-754 rounding to the
nearest binary double, the overflow of extreme exponents to infinity and
their underflow to zero are abstracted away), a signed infinity, or NaN. -/
inductive PyFloat where
  | finite (q : ℚ)
  | inf (neg : Bool)
  | nan
deriving DecidableEq

/-- The finite-decimal part of the Python `float()` grammar, after sign
splitting: `[digitpart] [. [digitpart]] [(e|E) [sign] digitpart]` with at
least one mantissa digit, underscores per `digitGroup`.  The value is the
exact rational of the literal. -/
def parsePyDecimal (sign : Int) (cs : List Char) : Option ℚ :=
  let me := breakExp cs
  let mp := breakDot me.1
  let ipOk : Option (List Char) := if mp.1 = [] then some [] else digitGroup mp.1
  let fpOk : Option (List Char) :=
    match mp.2 with
    | none => some []
    | some f => if f = [] then some [] else digitGroup f
  let expOk : Option (Int × List Char) :=
    match me.2 with
    | none => some (1, [])
    | some ex =>
      let es := splitSign ex
      (digitGroup es.2).map fun ds => (es.1, ds)
  match ipOk, fpOk, expOk with
  | some ip, some fp, some ev =>
    if ip ++ fp = [] then none
    else
      let m := digitsVal (ip ++ fp)
      let expo : Int := ev.1 * Int.ofNat (digitsVal ev.2) - Int.ofNat fp.length
      some (if 0 ≤ expo then mkRat (sign * Int.ofNat (m * 10 ^ expo.toNat)) 1
            else mkRat (sign * Int.ofNat m) (10 ^ (-expo).toNat))
  | _, _, _ => none

/-- Model of Python `float(s)` on a string: optional surrounding
whitespace, optional sign, then case-insensitive `inf`/`infinity`/`nan` or
a decimal literal with optional fraction, exponent and digit-group
underscores.  CPython first rewrites unicode decimal digits and spaces to
ASCII; this model takes that ASCII form as its input. -/
def pyFloatOfString (s : String) : Option PyFloat :=
  let t := trimChars s.data
  let sd := splitSign t
  let low := sd.2.map asciiLower
  if low = ['i', 'n', 'f'] ∨ low = ['i', 'n', 'f', 'i', 'n', 'i', 't', 'y'] then
    some (.inf (decide (sd.1 < 0)))
  else if low = ['n', 'a', 'n'] then some .nan
  else (parsePyDecimal sd.1 sd.2).map .finite

/-- JSON values as parsed by Python `json` / `resp.json()`. -/
inductive JsonValue where
  | null
  | bool (b : Bool)
  | num (q : ℚ)
  | str (s : String)
  | arr (elems : List JsonValue)
  | obj (fields : List (String × JsonValue))

/-- Python truthiness test `not record` (inverted): empty dict, empty list,
empty string, zero and `None` are falsy. -/
def isFalsy : JsonValue → Bool
  | .null => true
  | .bool b => !b
  | .num q => decide (q = 0)
  | .str s => s.isEmpty
  | .arr xs => xs.isEmpty
  | .obj kvs => kvs.isEmpty

/-- Python `v[k]` on a JSON value: only dicts answer, and a duplicate JSON
key keeps its last binding (as `json.loads` does); every other shape raises
(`KeyError` / `TypeError`), modelled as `none`. -/
def pyGetItem (v : JsonValue) (k : String) : Option JsonValue :=
  match v with
  | .obj kvs => kvs.reverse.lookup k
  | _ => none

/-- Python `int(float)`: truncation toward zero. -/
def ratTrunc (q : ℚ) : Int :=
  if q.num < 0 then -Int.ofNat (q.num.natAbs / q.den) else Int.ofNat (q.num.natAbs / q.den)

/-- Model of Python `int(x)` on a JSON value. -/
def pyInt : JsonValue → Option Int
  | .num q => some (ratTrunc q)
  | .bool b => some (if b then 1 else 0)
  | .str s => pyIntOfString s
  | _ => none

/-- Model of Python `float(x)` on a JSON value. -/
def pyFloat : JsonValue → Option PyFloat
  | .num q => some (.finite q)
  | .bool b => some (.finite (if b then 1 else 0))
  | .str s => pyFloatOfString s
  | _ => none

/-- Whether a JSON value is a dict (the only shape whose `.get` method
exists). -/
def isDict : JsonValue → Bool
  | .obj _ => true
  | _ => false

/-- Whether a JSON value, if it is a string, consists of ASCII characters
only.  On such values the coercion models above agree exactly with Python
`int()`/`float()`; a non-ASCII string may spell digits or spaces in
unicode, which CPython rewrites to ASCII before parsing and which the
models do not replay. -/
def strAscii : JsonValue → Bool
  | .str s => s.data.all fun c => c.toNat < 128
  | _ => true

/-- A field access whose coercion raises in the program: the key is
missing (or the container is not a dict), or the value is present but the
coercion fails — stated for values whose strings are ASCII, where the
coercion models coincide with Python. -/
def coercionFails {α : Type} (o : Option JsonValue) (f : JsonValue → Option α) : Prop :=
  o = none ∨ ∃ v, o = some v ∧ strAscii v = true ∧ f v = none

/-- Proleptic Gregorian date (year, month, day) of a day count relative to
1970-01-01, the standard days-to-civil algorithm that `datetime` date
arithmetic realises. -/
def civilFromDays (z0 : Int) : Int × Nat × Nat :=
  let z := z0 + 719468
  let era := Int.fdiv z 146097
  let doe := (z - era * 146097).toNat
  let yoe := (doe - doe / 1460 + doe / 36524 - doe / 146096) / 365
  let y := (yoe : Int) + era * 400
  let doy := doe - (365 * yoe + yoe / 4 - yoe / 100)
  let mp := (5 * doy + 2) / 153
  let d := doy - (153 * mp + 2) / 5 + 1
  let m := if mp < 10 then mp + 3 else mp - 9
  (if m ≤ 2 then y + 1 else y, m, d)

/-- Zero-pad to two digits, as `strftime` does for `%m %d %H %M %S`. -/
def pad2 (n : Nat) : List Char := if n < 10 then '0' :: natCsvChars n else natCsvChars n

/-- `datetime.fromtimestamp(ts, tz=timezone.utc).strftime("%Y-%m-%d %H:%M:%S")`
for a timestamp whose UTC datetime is representable.  The program runs on
platform `strftime`, whose `%Y` renders the year unpadded, so years below
1000 appear with fewer than four digits (for example `1-01-01 00:00:00`
at the range floor); `%m %d %H %M %S` are always zero-padded to two. -/
def fmtCivil (ts : Int) : String :=
  let days := Int.fdiv ts 86400
  let secs := (ts - 86400 * days).toNat
  let c := civilFromDays days
  String.mk (natCsvChars c.1.toNat ++ '-' :: pad2 c.2.1 ++ '-' :: pad2 c.2.2
    ++ ' ' :: pad2 (secs / 3600) ++ ':' :: pad2 (secs % 3600 / 60) ++ ':' :: pad2 (secs % 60))

/-- `datetime.fromtimestamp(ts, tz=timezone.utc)` followed by `strftime`:
raises `ValueError`/`OverflowError` (modelled as `none`) outside the
`datetime` range, years 1 to 9999 inclusive. -/
def formatTimestamp (ts : Int) : Option String :=
  if ts < -62135596800 ∨ 253402300799 < ts then none else some (fmtCivil ts)

/-- One normalized output row of the Transformer. -/
structure Row where
  timestamp_unix : Int
  timestamp_utc : String
  latitude : PyFloat
  longitude : PyFloat
deriving DecidableEq

/-- One logging call of the script, in source order of the message texts. -/
inductive LogMsg where
  | extractRequest
  | extractReceived
  | extractRequestFailed
  | extractParseFailed
  | transformStart
  | transformEmptyWarn
  | transformProduced
  | transformFailed
  | loadEmptyWarn
  | loadAppended (n : Nat)
  | loadFailed
  | usageError
  | startingEtl
  | done
deriving DecidableEq

/-- Outcome of running a Python function: a value, or an exception escaping
it (carrying the log emitted before the raise). -/
inductive PyResult (α : Type) where
  | ok (a : α)
  | exn (partialLog : List LogMsg)

/-- The answer of `requests.get` for the single request the script makes. -/
inductive NetResult where
  | connectionError
  | timeout
  | httpResponse (status : Nat) (body : Option JsonValue)

/-- The environment a full pipeline run interacts with. -/
structure World where
  net : NetResult
  rawWriteOk : Bool
  fs : Option (List String)
  csvWriteOk : Bool

/-- The network answers on which the `try` block of `extract` fails:
connection errors and timeouts (`requests.RequestException`), 4xx/5xx
statuses (`resp.raise_for_status()`), and unparseable bodies
(`resp.json()`). -/
def isFailureResponse : NetResult → Bool
  | .connectionError => true
  | .timeout => true
  | .httpResponse s body => if 400 ≤ s ∧ s < 600 then true else body.isNone

/-- `extract(logger)` of `iss.py`: fetch the ISS JSON record.  Request and
parse failures are caught and yield the empty dict.  Two errors inside the
`try` block are caught by neither handler and escape as `.exn`: a failure
of the raw snapshot file write (`open("iss_raw.json", "w")` / `json.dump`)
raises `OSError`, and — after a successful write — a parsed body that is
not a dict raises `AttributeError` at `data.get("message")`. -/
def extract (net : NetResult) (rawWriteOk : Bool) : PyResult (JsonValue × List LogMsg) :=
  match net with
  | .connectionError => .ok (.obj [], [.extractRequest, .extractRequestFailed])
  | .timeout => .ok (.obj [], [.extractRequest, .extractRequestFailed])
  | .httpResponse s body =>
    if 400 ≤ s ∧ s < 600 then .ok (.obj [], [.extractRequest, .extractRequestFailed])
    else
      match body with
      | none => .ok (.obj [], [.extractRequest, .extractParseFailed])
      | some d =>
        if rawWriteOk then
          if isDict d then .ok (d, [.extractRequest, .extractReceived])
          else .exn [.extractRequest]
        else .exn [.extractRequest]

/-- The `try` block of `transform`: the field accesses and conversions in
source order; `none` is a raised-and-caught exception (missing key, bad
coercion, or a timestamp `datetime` cannot represent). -/
def transformBody (record : JsonValue) : Option Row :=
  (pyGetItem record "timestamp").bind fun tv =>
  (pyInt tv).bind fun ts =>
  (pyGetItem record "iss_position").bind fun pos =>
  (pyGetItem pos "latitude").bind fun latv =>
  (pyFloat latv).bind fun lat =>
  (pyGetItem pos "longitude").bind fun lonv =>
  (pyFloat lonv).bind fun lon =>
  (formatTimestamp ts).map fun u =>
  { timestamp_unix := ts, timestamp_utc := u, latitude := lat, longitude := lon }

/-- `transform(record, logger)` of `iss.py`: empty records give an empty
DataFrame (modelled as `[]`), a caught conversion failure likewise, and a
well-formed record gives the single normalized row. -/
def transform (record : JsonValue) : List Row × List LogMsg :=
  if isFalsy record then ([], [.transformStart, .transformEmptyWarn])
  else
    match transformBody record with
    | some r => ([r], [.transformStart, .transformProduced])
    | none => ([], [.transformStart, .transformFailed])

/-- The header line `df.to_csv` writes when the destination is new. -/
def csvHeader : String := "timestamp_unix,timestamp_utc,latitude,longitude"

/-- Digit characters after the decimal point of `num/den` scaled down by
`den` (fuel-capped at the callers 17, the longest run `repr(float)` can
produce); empty once the remainder is zero. -/
def fracDigits : Nat → Nat → Nat → List Char
  | 0, _, _ => []
  | fuel + 1, rem, d =>
    if rem = 0 then []
    else Nat.digitChar (rem * 10 / d) :: fracDigits fuel (rem * 10 % d) d

/-- Digits of an integer as `to_csv` prints it. -/
def intCsvChars (n : Int) : List Char :=
  if n < 0 then '-' :: natCsvChars n.natAbs else natCsvChars n.natAbs

/-- A rational printed the way `to_csv` prints the float it models: sign,
integer part, dot, fraction digits (at least one). -/
def ratCsvChars (q : ℚ) : List Char :=
  (if q.num < 0 then ['-'] else []) ++ natCsvChars (q.num.natAbs / q.den)
    ++ '.' :: (if (q.num.natAbs % q.den) = 0 then ['0'] else fracDigits 17 (q.num.natAbs % q.den) q.den)

/-- A Python float printed the way `df.to_csv` prints it: finite values as
their decimal repr, infinities as `inf`/`-inf`, NaN as the empty field
(the pandas default `na_rep`). -/
def pyFloatCsvChars : PyFloat → List Char
  | .finite q => ratCsvChars q
  | .inf neg => if neg then ['-', 'i', 'n', 'f'] else ['i', 'n', 'f']
  | .nan => []

/-- The single CSV data line `df.to_csv` emits for a row. -/
def renderRow (r : Row) : String :=
  String.mk (intCsvChars r.timestamp_unix ++ ',' :: r.timestamp_utc.data
    ++ ',' :: pyFloatCsvChars r.latitude ++ ',' :: pyFloatCsvChars r.longitude)

/-- The lines of the destination after `df.to_csv(csv_file, mode="a",
header=not file_exists, index=False)`: the header is prepended exactly when
the file did not exist. -/
def appendCsv (fs : Option (List String)) (rows : List Row) : List String :=
  match fs with
  | none => csvHeader :: rows.map renderRow
  | some ls => ls ++ rows.map renderRow

/-- The `try` block of `load`: the existence check plus `to_csv` call;
`.exn` when opening or writing the destination fails. -/
def loadTryBody (rows : List Row) (fs : Option (List String)) (writeOk : Bool) :
    PyResult (Option (List String)) :=
  if writeOk then .ok (some (appendCsv fs rows)) else .exn []

/-- `load(df, csv_file, logger)` of `iss.py`: nothing is written for an
empty DataFrame, otherwise the rows are appended (header only on creation),
and any open/write exception is caught and logged. -/
def load (rows : List Row) (fs : Option (List String)) (writeOk : Bool) :
    Option (List String) × List LogMsg :=
  if rows.isEmpty then (fs, [.loadEmptyWarn])
  else
    match loadTryBody rows fs writeOk with
    | .ok fs1 => (fs1, [.loadAppended rows.length])
    | .exn _ => (fs, [.loadFailed])

/-- `main()` of `iss.py`: usage check, then extract, transform, load in
sequence, returning the exit code together with the final state of the
destination file and the log.  An exception escaping a stage (only the raw
snapshot write in `extract` can raise) propagates out of `main` as well. -/
def main (argv : List String) (w : World) :
    PyResult (Int × Option (List String) × List LogMsg) :=
  if argv.length ≠ 2 then .ok (2, w.fs, [.usageError])
  else
    match extract w.net w.rawWriteOk with
    | .exn l => .exn (.startingEtl :: l)
    | .ok (d, elog) =>
      let t := transform d
      let o := load t.1 w.fs w.csvWriteOk
      .ok (0, o.1, .startingEtl :: (elog ++ t.2 ++ o.2 ++ [.done]))

end ISS

-- Concrete evaluations of the model at known points of the program.
example : ISS.fmtCivil 1700000000 = "2023-11-14 22:13:20" := rfl
example : ISS.fmtCivil 0 = "1970-01-01 00:00:00" := rfl
example : ISS.fmtCivil (-1) = "1969-12-31 23:59:59" := rfl
example : ISS.fmtCivil 951782400 = "2000-02-29 00:00:00" := rfl
example : ISS.fmtCivil 253402300799 = "9999-12-31 23:59:59" := rfl
example : ISS.fmtCivil (-62135596800) = "1-01-01 00:00:00" := rfl
example : ISS.pyFloatOfString "10.5" = some (.finite (mkRat 21 2)) := rfl
example : ISS.pyFloatOfString "-20.25" = some (.finite (mkRat (-81) 4)) := rfl
example : ISS.pyFloatOfString "1e1" = some (.finite (mkRat 10 1)) := rfl
example : ISS.pyFloatOfString "1_0" = some (.finite (mkRat 10 1)) := rfl
example : ISS.pyFloatOfString "2.5e-3" = some (.finite (mkRat 25 10000)) := rfl
example : ISS.pyFloatOfString " -Infinity " = some (.inf true) := rfl
example : ISS.pyFloatOfString "NaN" = some .nan := rfl
example : ISS.pyFloatOfString ".5" = some (.finite (mkRat 1 2)) := rfl
example : ISS.pyFloatOfString "5." = some (.finite (mkRat 5 1)) := rfl
example : ISS.pyFloatOfString "1__0" = none := rfl
example : ISS.pyFloatOfString "1_" = none := rfl
example : ISS.pyFloatOfString "_1" = none := rfl
example : ISS.pyFloatOfString "1e" = none := rfl
example : ISS.pyFloatOfString "" = none := rfl
example : ISS.pyIntOfString " +42 " = some 42 := rfl
example : ISS.pyIntOfString "1_0" = some 10 := rfl
example : ISS.pyIntOfString "10.5" = none := rfl
example : ISS.pyIntOfString "1_" = none := rfl
example :
    ISS.transform (.obj [("timestamp", .num 1700000000),
      ("iss_position", .obj [("latitude", .str "10.5"), ("longitude", .str "-20.25")])])
    = ([{ timestamp_unix := 1700000000, timestamp_utc := "2023-11-14 22:13:20",
          latitude := .finite (mkRat 21 2), longitude := .finite (mkRat (-81) 4) }],
       [.transformStart, .transformProduced]) := rfl
example : ISS.transform (.obj []) = ([], [.transformStart, .transformEmptyWarn]) := rfl
example :
    ISS.renderRow { timestamp_unix := 1700000000, timestamp_utc := "2023-11-14 22:13:20",
                    latitude := .finite (mkRat 21 2), longitude := .finite (mkRat (-81) 4) }
    = "1700000000,2023-11-14 22:13:20,10.5,-20.25" := rfl
example :
    ISS.extract (.httpResponse 200 (some (.arr []))) true
    = .exn [.extractRequest] := rfl
example :
    ISS.extract (.httpResponse 200 (some (.obj [("message", .str "success")]))) true
    = .ok (.obj [("message", .str "success")], [.extractRequest, .extractReceived]) := rfl

namespace ISS

/-- A digit character rendered by `Nat.digitChar` below 10 satisfies
`Char.isDigit`. -/
theorem digitChar_isDigit (m : Nat) (h : m < 10) : (Nat.digitChar m).isDigit = true := by
  interval_cases m <;> decide

/-- With enough fuel, the digit renderer produces a nonempty list headed by
a digit character. -/
theorem natCsvGo_cons (fuel : Nat) :
    ∀ n acc, n < fuel → ∃ c cs, natCsvGo fuel n acc = c :: cs ∧ c.isDigit = true := by
  induction fuel with
  | zero => intro n acc h; omega
  | succ f ih =>
    intro n acc h
    by_cases h10 : n < 10
    · exact ⟨Nat.digitChar n, acc, by simp [natCsvGo, h10], digitChar_isDigit n h10⟩
    · have hd : n / 10 < n := Nat.div_lt_self (by omega) (by omega)
      obtain ⟨c, cs, hgo, hdig⟩ := ih (n / 10) (Nat.digitChar (n % 10) :: acc) (by omega)
      exact ⟨c, cs, by simp [natCsvGo, h10, hgo], hdig⟩

/-- The decimal rendering of a natural number starts with a digit. -/
theorem natCsvChars_cons (n : Nat) :
    ∃ c cs, natCsvChars n = c :: cs ∧ c.isDigit = true :=
  natCsvGo_cons (n + 1) n [] (Nat.lt_succ_self n)

/-- A rendered data line never coincides with the CSV header line: its
first character is a digit or a minus sign, the header starts with a
letter. -/
theorem renderRow_ne_csvHeader (r : Row) : renderRow r ≠ csvHeader := by
  intro h
  have hh : (renderRow r).data.head? = some 't' := by rw [h]; rfl
  obtain ⟨c, cs, hnat, hdig⟩ := natCsvChars_cons r.timestamp_unix.natAbs
  have hd2 : (renderRow r).data
      = intCsvChars r.timestamp_unix ++ ',' :: r.timestamp_utc.data
        ++ ',' :: pyFloatCsvChars r.latitude ++ ',' :: pyFloatCsvChars r.longitude := rfl
  by_cases hneg : r.timestamp_unix < 0
  · have hm : (renderRow r).data.head? = some '-' := by
      rw [hd2]; simp [intCsvChars, hneg]
    rw [hm] at hh
    exact absurd (Option.some.inj hh) (by decide)
  · have hm : (renderRow r).data.head? = some c := by
      rw [hd2]; simp [intCsvChars, hneg, hnat]
    rw [hm] at hh
    rw [Option.some.inj hh] at hdig
    exact absurd hdig (by decide)

/-- A successful dict lookup forces the record to be a nonempty dict, hence
truthy. -/
theorem isFalsy_eq_false_of_pyGetItem (r : JsonValue) (k : String) (v : JsonValue)
    (h : pyGetItem r k = some v) : isFalsy r = false := by
  cases r with
  | obj kvs =>
    cases kvs with
    | nil => simp [pyGetItem] at h
    | cons a l => simp [isFalsy]
  | null => simp [pyGetItem] at h
  | bool b => simp [pyGetItem] at h
  | num q => simp [pyGetItem] at h
  | str s => simp [pyGetItem] at h
  | arr xs => simp [pyGetItem] at h

/-- If any lookup or coercion of the `try` block fails, the block raises,
i.e. `transformBody` is `none`. -/
theorem transformBody_eq_none (record : JsonValue)
    (h : (pyGetItem record "timestamp").bind pyInt = none
      ∨ ((pyGetItem record "iss_position").bind fun p => pyGetItem p "latitude").bind pyFloat = none
      ∨ ((pyGetItem record "iss_position").bind fun p => pyGetItem p "longitude").bind pyFloat = none) :
    transformBody record = none := by
  unfold transformBody
  cases h1 : pyGetItem record "timestamp" with
  | none => simp [h1]
  | some tv =>
    cases h2 : pyInt tv with
    | none => simp [h1, h2]
    | some ts =>
      cases h3 : pyGetItem record "iss_position" with
      | none => simp [h1, h2, h3]
      | some pos =>
        cases h4 : pyGetItem pos "latitude" with
        | none => simp [h1, h2, h3, h4]
        | some latv =>
          cases h5 : pyFloat latv with
          | none => simp [h1, h2, h3, h4, h5]
          | some lat =>
            cases h6 : pyGetItem pos "longitude" with
            | none => simp [h1, h2, h3, h4, h5, h6]
            | some lonv =>
              cases h7 : pyFloat lonv with
              | none => simp [h1, h2, h3, h4, h5, h6, h7]
              | some lon =>
                exfalso
                rcases h with h | h | h
                · rw [h1] at h; simp [h2] at h
                · rw [h3] at h; simp [h4, h5] at h
                · rw [h3] at h; simp [h6, h7] at h

end ISS

namespace ISS

/-- C1 (amended): for every raw record with a numeric `timestamp` whose
truncation lies in the `datetime`-representable UTC range
`[-62135596800, 253402300799]` and an `iss_position` mapping carrying
float-coercible string `latitude` and `longitude` (per the Python `float()`
grammar: decimals with optional fraction, exponent and digit-group
underscores, or signed `inf`/`nan`; finite values taken as the exact
decimal), `transform` returns exactly one row `(int(timestamp), strftime
of it in UTC with the year unpadded below 1000, float(latitude),
float(longitude))`.  The range hypothesis is forced by the counterexample
`transform_out_of_range_cex`: outside it `datetime.fromtimestamp` raises
and `transform` returns zero rows. -/
theorem transform_valid_record (record pos : JsonValue) (q : ℚ) (lat lon : PyFloat)
    (latS lonS : String)
    (hts : pyGetItem record "timestamp" = some (.num q))
    (hpos : pyGetItem record "iss_position" = some pos)
    (hlat : pyGetItem pos "latitude" = some (.str latS))
    (hlon : pyGetItem pos "longitude" = some (.str lonS))
    (hlatF : pyFloatOfString latS = some lat)
    (hlonF : pyFloatOfString lonS = some lon)
    (hlo : -62135596800 ≤ ratTrunc q) (hhi : ratTrunc q ≤ 253402300799) :
    transform record
      = ([{ timestamp_unix := ratTrunc q, timestamp_utc := fmtCivil (ratTrunc q),
            latitude := lat, longitude := lon }],
         [LogMsg.transformStart, LogMsg.transformProduced]) := by
  have hf : isFalsy record = false := isFalsy_eq_false_of_pyGetItem record _ _ hts
  have hrange : ¬(ratTrunc q < -62135596800 ∨ 253402300799 < ratTrunc q) := by omega
  have hfmt : formatTimestamp (ratTrunc q) = some (fmtCivil (ratTrunc q)) := by
    simp [formatTimestamp, hrange]
  simp [transform, transformBody, hf, hts, hpos, hlat, hlon, hlatF, hlonF, hfmt,
    pyInt, pyFloat]

/-- Witness for C1 at the end-to-end example of the spec: the record with
timestamp 1700000000 and position `("10.5", "-20.25")` yields the row
`(1700000000, "2023-11-14 22:13:20", 10.5, -20.25)`. -/
theorem transform_valid_record_witness :
    transform (.obj [("timestamp", .num 1700000000),
        ("iss_position", .obj [("latitude", .str "10.5"), ("longitude", .str "-20.25")])])
      = ([{ timestamp_unix := 1700000000, timestamp_utc := "2023-11-14 22:13:20",
            latitude := .finite (mkRat 21 2), longitude := .finite (mkRat (-81) 4) }],
         [LogMsg.transformStart, LogMsg.transformProduced]) := by
  have h := transform_valid_record
    (.obj [("timestamp", .num 1700000000),
      ("iss_position", .obj [("latitude", .str "10.5"), ("longitude", .str "-20.25")])])
    (.obj [("latitude", .str "10.5"), ("longitude", .str "-20.25")])
    1700000000 (.finite (mkRat 21 2)) (.finite (mkRat (-81) 4)) "10.5" "-20.25"
    rfl rfl rfl rfl (by decide) (by decide) (by decide) (by decide)
  rw [h]
  decide

/-- Counterexample to C1 as stated: the record with the numeric timestamp
10^12 (and perfectly coercible position strings) yields zero rows, not one,
because `datetime.fromtimestamp(10^12)` raises (year 33658 is out of range)
and the `except` clause returns an empty DataFrame. -/
theorem transform_out_of_range_cex :
    transform (.obj [("timestamp", .num 1000000000000),
        ("iss_position", .obj [("latitude", .str "10.5"), ("longitude", .str "-20.25")])])
      = ([], [LogMsg.transformStart, LogMsg.transformFailed]) := rfl

/-- C2 (amended): on every network failure — connection error, timeout,
4xx/5xx HTTP status — and on every JSON-parse failure, `extract` returns
the empty mapping and records the failure, raising nothing.  The
qualification to these paths is forced by `extract_raw_write_cex`: when the
fetch and parse succeed but writing the raw snapshot `iss_raw.json` fails,
that `OSError` propagates past `extract`. -/
theorem extract_failure_returns_empty (net : NetResult) (rawWriteOk : Bool)
    (h : isFailureResponse net = true) :
    extract net rawWriteOk
        = .ok (.obj [], [LogMsg.extractRequest, LogMsg.extractRequestFailed])
    ∨ extract net rawWriteOk
        = .ok (.obj [], [LogMsg.extractRequest, LogMsg.extractParseFailed]) := by
  cases net with
  | connectionError => exact Or.inl rfl
  | timeout => exact Or.inl rfl
  | httpResponse s body =>
    by_cases hs : 400 ≤ s ∧ s < 600
    · left; simp [extract, hs]
    · have hb : body.isNone = true := by simpa [isFailureResponse, hs] using h
      cases body with
      | none => right; simp [extract, hs]
      | some d => simp at hb

/-- Witness for C2 at a concrete connection error. -/
theorem extract_failure_returns_empty_witness :
    extract .connectionError true
        = .ok (.obj [], [LogMsg.extractRequest, LogMsg.extractRequestFailed])
    ∨ extract .connectionError true
        = .ok (.obj [], [LogMsg.extractRequest, LogMsg.extractParseFailed]) :=
  extract_failure_returns_empty .connectionError true rfl

/-- Counterexample to C2 as stated ("never raises past its own boundary on
any execution"): a successful fetch and parse followed by a failing raw
snapshot write makes `extract` raise. -/
theorem extract_raw_write_cex :
    extract (.httpResponse 200 (some (.obj [("message", .str "success")]))) false
      = .exn [LogMsg.extractRequest] := rfl

/-- C3 (amended): invoked with exactly one positional argument, the
orchestrator runs Extractor, Transformer and Loader in that order and
returns exit code 0 regardless of stage-level failures (which degrade to
empty results), provided `extract` returns rather than raises — `extract`
raises exactly when the fetch and parse succeed and either the raw
snapshot write fails (`OSError`) or the parsed body is not a dict
(`AttributeError` at `data.get`).  The proviso is forced by
`main_extract_raises_cex`: when the raw snapshot write inside `extract`
raises, the exception propagates out of `main` and no exit code is
returned. -/
theorem main_single_arg_runs_pipeline (prog file : String) (w : World)
    (d : JsonValue) (elog : List LogMsg)
    (hx : extract w.net w.rawWriteOk = .ok (d, elog)) :
    main [prog, file] w
      = .ok (0, (load (transform d).1 w.fs w.csvWriteOk).1,
          .startingEtl :: (elog ++ (transform d).2
            ++ (load (transform d).1 w.fs w.csvWriteOk).2 ++ [.done])) := by
  simp [main, hx]

/-- Witness for C3 at a concrete world whose network connection fails: the
pipeline still runs end to end and exits 0. -/
theorem main_single_arg_runs_pipeline_witness :
    main ["iss.py", "out.csv"] ⟨.connectionError, true, none, true⟩
      = .ok (0, none,
          [.startingEtl, .extractRequest, .extractRequestFailed,
           .transformStart, .transformEmptyWarn, .loadEmptyWarn, .done]) := by
  have h := main_single_arg_runs_pipeline "iss.py" "out.csv"
    ⟨.connectionError, true, none, true⟩
    (.obj []) [.extractRequest, .extractRequestFailed] rfl
  rw [h]
  rfl

/-- Counterexample to C3 as stated: one positional argument, but the raw
snapshot write fails after a successful fetch, so `main` raises instead of
returning exit code 0. -/
theorem main_extract_raises_cex :
    main ["iss.py", "out.csv"]
        ⟨.httpResponse 200 (some (.obj [("message", .str "success")])), false, none, true⟩
      = .exn [LogMsg.startingEtl, LogMsg.extractRequest] := rfl

end ISS

namespace ISS

/-- C4: on a single-row input with the destination absent, `load` creates
the file as the header line followed by exactly one data line; with the
destination present, the existing lines survive as a prefix (never
truncated or rewritten), exactly one non-header data line is appended, so
the header count is unchanged and the data-line count grows by one. -/
theorem load_single_row (r : Row) :
    load [r] none true = (some [csvHeader, renderRow r], [LogMsg.loadAppended 1])
    ∧ ∀ ls : List String,
        load [r] (some ls) true = (some (ls ++ [renderRow r]), [LogMsg.loadAppended 1])
        ∧ ls <+: ls ++ [renderRow r]
        ∧ (ls ++ [renderRow r]).count csvHeader = ls.count csvHeader
        ∧ (ls ++ [renderRow r]).length - (ls ++ [renderRow r]).count csvHeader
            = (ls.length - ls.count csvHeader) + 1 := by
  refine ⟨rfl, fun ls => ?_⟩
  have hne : renderRow r ≠ csvHeader := renderRow_ne_csvHeader r
  have hc : (ls ++ [renderRow r]).count csvHeader = ls.count csvHeader := by
    simp [List.count_append, List.count_singleton, hne]
  have hlen : ls.count csvHeader ≤ ls.length := List.count_le_length csvHeader ls
  refine ⟨rfl, ⟨[renderRow r], rfl⟩, hc, ?_⟩
  rw [hc]
  simp only [List.length_append, List.length_singleton]
  omega

/-- C5: with zero or two-plus positional arguments, the orchestrator logs
the usage error and returns exit code 2, leaving the destination file
untouched; the log holds no `extractRequest` entry, and since every path
through `extract` logs `extractRequest` first, `extract` was never
invoked — no network call is attempted. -/
theorem main_wrong_arg_count (prog : String) (args : List String) (w : World)
    (h : args.length ≠ 1) :
    main (prog :: args) w = .ok (2, w.fs, [LogMsg.usageError])
    ∧ LogMsg.extractRequest ∉ [LogMsg.usageError] := by
  have hlen : args.length + 1 ≠ 2 := by omega
  constructor
  · simp only [main, List.length_cons]
    rw [if_pos hlen]
  · decide

/-- Witness for C5 with zero positional arguments. -/
theorem main_wrong_arg_count_witness :
    main ["iss.py"] ⟨.connectionError, true, none, true⟩ = .ok (2, none, [LogMsg.usageError])
    ∧ LogMsg.extractRequest ∉ [LogMsg.usageError] :=
  main_wrong_arg_count "iss.py" [] ⟨.connectionError, true, none, true⟩ (by decide)

/-- A failing field coercion makes the composed lookup-and-coerce chain
`none`. -/
theorem bind_eq_none_of_coercionFails {α : Type} {o : Option JsonValue}
    {f : JsonValue → Option α} (h : coercionFails o f) : o.bind f = none := by
  rcases h with h | ⟨v, hv, _, hf⟩
  · simp [h]
  · simp [hv, hf]

/-- C6: `transform` on an empty mapping returns zero rows and logs the
empty-record warning; more generally whenever the record is falsy or any of
`timestamp`, `iss_position`, `iss_position.latitude`,
`iss_position.longitude` is missing or fails its coercion, `transform`
returns zero rows and records the cause (empty-record warning or
conversion-failure error), never raising.  Non-coercibility of a string
field is stated through `coercionFails`, i.e. for ASCII strings, where the
coercion models coincide exactly with Python `int()`/`float()` (unicode
digit or space spellings are rewritten to that ASCII form by CPython before
parsing). -/
theorem transform_missing_or_noncoercible (record : JsonValue)
    (h : isFalsy record = true
      ∨ coercionFails (pyGetItem record "timestamp") pyInt
      ∨ pyGetItem record "iss_position" = none
      ∨ coercionFails ((pyGetItem record "iss_position").bind fun p => pyGetItem p "latitude")
          pyFloat
      ∨ coercionFails ((pyGetItem record "iss_position").bind fun p => pyGetItem p "longitude")
          pyFloat) :
    transform record = ([], [LogMsg.transformStart, LogMsg.transformEmptyWarn])
    ∨ transform record = ([], [LogMsg.transformStart, LogMsg.transformFailed]) := by
  by_cases hf : isFalsy record = true
  · left; simp [transform, hf]
  · right
    rcases h with h | h | h | h | h
    · exact absurd h hf
    · simp [transform, hf,
        transformBody_eq_none record (Or.inl (bind_eq_none_of_coercionFails h))]
    · have hb : ((pyGetItem record "iss_position").bind fun p => pyGetItem p "latitude").bind
          pyFloat = none := by simp [h]
      simp [transform, hf, transformBody_eq_none record (Or.inr (Or.inl hb))]
    · simp [transform, hf,
        transformBody_eq_none record (Or.inr (Or.inl (bind_eq_none_of_coercionFails h)))]
    · simp [transform, hf,
        transformBody_eq_none record (Or.inr (Or.inr (bind_eq_none_of_coercionFails h)))]

/-- Witness for C6 at the empty mapping. -/
theorem transform_missing_or_noncoercible_witness :
    transform (.obj []) = ([], [LogMsg.transformStart, LogMsg.transformEmptyWarn])
    ∨ transform (.obj []) = ([], [LogMsg.transformStart, LogMsg.transformFailed]) :=
  transform_missing_or_noncoercible (.obj []) (Or.inl rfl)

/-- C7: `load` with zero rows performs no write for any destination state
and either write capability: the file state is returned untouched (absent
stays absent, contents stay intact) and only the nothing-to-write warning
is logged. -/
theorem load_empty_rows (fs : Option (List String)) (writeOk : Bool) :
    load [] fs writeOk = (fs, [LogMsg.loadEmptyWarn]) := rfl

/-- C8: for every row and destination state, a failure to open or write the
destination makes the `try` block of `load` raise, and `load` catches it,
records the failure, and returns with the file state unchanged — the
exception never propagates to the caller (the codomain of `load` has no
exception case). -/
theorem load_write_failure_caught (r : Row) (fs : Option (List String)) :
    loadTryBody [r] fs false = .exn [] ∧ load [r] fs false = (fs, [LogMsg.loadFailed]) :=
  ⟨rfl, rfl⟩

/-- C9: `load` decides the header solely from the existence of the
destination just before writing: on any existing line list — empty or of
the wrong schema — it appends the bare data line (which is never the header
line), and the header is written only when `load` itself creates the
file. -/
theorem load_header_only_on_create (r : Row) :
    (∀ ls : List String,
        load [r] (some ls) true = (some (ls ++ [renderRow r]), [LogMsg.loadAppended 1])
        ∧ renderRow r ≠ csvHeader)
    ∧ load [r] none true = (some (csvHeader :: [renderRow r]), [LogMsg.loadAppended 1]) :=
  ⟨fun _ => ⟨rfl, renderRow_ne_csvHeader r⟩, rfl⟩

/-- C10: `transform` is total over every JSON value (in particular every
dict): it always returns, with either zero rows or exactly one row, because
the `except Exception` clause catches every exception of the conversion. -/
theorem transform_total (record : JsonValue) :
    (transform record).1 = [] ∨ ∃ r, (transform record).1 = [r] := by
  unfold transform
  by_cases hf : isFalsy record = true
  · left; simp [hf]
  · cases hb : transformBody record with
    | none => left; simp [hf, hb]
    | some r => right; exact ⟨r, by simp [hf, hb]⟩

end ISS
